import Mathlib

/-!
Verification development for the MQTT connection/publish lifecycle wrapper
of `flet_mqtt_client.py` (class `FletMQTTClient` and the configuration
record `MQTTConfig`).

The Python code is embedded shallowly:

* `MQTTConfig` is copied field for field (the runtime-derived default
  client identifier becomes a plain string constant).
* Python runtime values reaching the `payload : Any` parameter of
  `publish` are modelled by the inductive `PyVal`; the constructor
  `PyVal.obj` stands for any Python object that is neither `str`,
  `bytes`, `int`, `dict` nor `list` (for example a `set`), which the
  standard-library JSON serializer rejects with `TypeError`.
* `json.dumps` is embedded as `jsonDumpsVal` (with `ensure_ascii`
  escaping, `", "` / `": "` separators, insertion order), returning
  `none` where CPython raises `TypeError`.
* `bytes.decode()` (strict UTF-8) is embedded as the validity predicate
  `validUtf8`; an invalid byte sequence makes the decode raise
  `UnicodeDecodeError`.
* Each method of `FletMQTTClient` becomes a pure function from the
  client state (the `connected_event` flag and `_is_running` flag) and
  the relevant environment inputs (outcome of the protocol client's
  `connect`, the enqueue result code of its `publish`, whether the
  awaited `connected_event` is set within the 5-second window) to an
  outcome record collecting the new state, the emitted log events, the
  calls handed to the protocol client, and the Python exception (if
  any) propagating to the caller.
* Log statements are abstracted to the structured events of `LogEvt`:
  one constructor per `self.logger.…` call site, carrying the runtime
  data that the corresponding f-string interpolates where a claim
  depends on it.

The external protocol client (paho) is out of scope and is modelled
with the collaborator shape of the specification: `connect` may raise
(environment input), `subscribe`/`disconnect` return, and the send
primitive returns an enqueue result code (`MQTT_ERR_SUCCESS = 0`).
-/

namespace FletMQTT

/-- Embeds the dataclass `MQTTConfig` of `flet_mqtt_client.py`
(lines 21–31).  The runtime-derived default `client_id` (host name plus
timestamp) is replaced by a fixed string; this development never reads
`client_id`. -/
structure MQTTConfig where
  broker_host : String := "127.0.0.1"
  broker_port : Nat := 1883
  broker_user : Option String := none
  broker_password : Option String := none
  client_id : String := "flet_mqtt_async"
  keepalive : Nat := 60
  qos : Nat := 0
  subscribe_topics : List String := []
deriving Repr, DecidableEq

/-- Python exception classes relevant to this subsystem.  `osError`
covers the `(socket.error, OSError)` family caught first in `start`;
`other` stands for any other `Exception` subclass. -/
inductive PyExc where
  | osError
  | typeError
  | timeoutError
  | unicodeDecodeError
  | other
deriving Repr, DecidableEq

/-- Python runtime values that can reach the `payload : Any` parameter
of `FletMQTTClient.publish`.  `dict` and `list` are the structured
values recognised by the `isinstance(payload, (dict, list))` test at
line 158; `obj` stands for any other Python object that `json.dumps`
cannot serialize (for example a `set` or an arbitrary class instance),
which may also occur nested inside a `dict` or `list`. -/
inductive PyVal where
  | str : String → PyVal
  | bytes : List Nat → PyVal
  | int : Int → PyVal
  | obj : PyVal
  | dict : List (String × PyVal) → PyVal
  | list : List PyVal → PyVal
deriving Repr

/-- Hexadecimal digit characters, as produced by CPython's
`\uXXXX` escapes (lower case). -/
def hexDigit (n : Nat) : Char :=
  if n < 10 then Char.ofNat (48 + n) else Char.ofNat (87 + n)

/-- Four-digit hexadecimal rendering of `n % 65536`. -/
def hex4 (n : Nat) : String :=
  String.mk [hexDigit (n / 4096 % 16), hexDigit (n / 256 % 16),
             hexDigit (n / 16 % 16), hexDigit (n % 16)]

/-- Escaping of one character inside a JSON string literal, following
CPython's `json.encoder.py_encode_basestring_ascii` (the default
`ensure_ascii=True` used at line 159): the short escapes
`\" \\ \b \f \n \r \t`, `\uXXXX` for the remaining characters below
`0x20` and for every character at or above `0x7f`, and surrogate pairs
beyond the basic multilingual plane. -/
def jsonEscapeChar (c : Char) : String :=
  let n := c.toNat
  if c = '"' then "\\\""
  else if c = '\\' then "\\\\"
  else if c = '\x08' then "\\b"
  else if c = '\x0c' then "\\f"
  else if c = '\n' then "\\n"
  else if c = '\r' then "\\r"
  else if c = '\t' then "\\t"
  else if n < 32 then "\\u" ++ hex4 n
  else if n < 127 then String.singleton c
  else if n < 65536 then "\\u" ++ hex4 n
  else
    "\\u" ++ hex4 (55296 + (n - 65536) / 1024) ++ "\\u" ++ hex4 (56320 + (n - 65536) % 1024)

/-- JSON string literal for `s`, double quotes included. -/
def jsonStr (s : String) : String :=
  "\"" ++ String.join (s.data.map jsonEscapeChar) ++ "\""

mutual

/-- Embeds `json.dumps` with its default arguments, which is how the
serializer is invoked at line 159 of `flet_mqtt_client.py`: insertion
order for `dict`, separators `", "` and `": "`, `ensure_ascii` string
escaping.  Returns `none` exactly where CPython raises `TypeError`:
on `bytes` and on any object that is not JSON-serializable. -/
def jsonDumpsVal : PyVal → Option String
  | PyVal.str s => some (jsonStr s)
  | PyVal.int n => some (toString n)
  | PyVal.bytes _ => none
  | PyVal.obj => none
  | PyVal.dict es =>
    (jsonDumpsEntries es).map (fun ps => "\x7b" ++ String.intercalate ", " ps ++ "\x7d")
  | PyVal.list xs =>
    (jsonDumpsElems xs).map (fun ps => "[" ++ String.intercalate ", " ps ++ "]")

/-- Serialized `"key": value` fragments of a `dict` payload, in
insertion order; `none` if any value is not serializable. -/
def jsonDumpsEntries : List (String × PyVal) → Option (List String)
  | [] => some []
  | (k, v) :: rest =>
    match jsonDumpsVal v, jsonDumpsEntries rest with
    | some sv, some srest => some ((jsonStr k ++ ": " ++ sv) :: srest)
    | _, _ => none

/-- Serialized elements of a `list` payload, in order; `none` if any
element is not serializable. -/
def jsonDumpsElems : List PyVal → Option (List String)
  | [] => some []
  | v :: rest =>
    match jsonDumpsVal v, jsonDumpsElems rest with
    | some sv, some srest => some (sv :: srest)
    | _, _ => none

end

/-- Mutable state of a `FletMQTTClient` instance relevant to the
claims: the `connected_event` flag (`asyncio.Event`, read as a boolean)
and the `_is_running` flag. -/
structure ClientState where
  connected : Bool
  is_running : Bool
deriving Repr, DecidableEq

/-- Inbound protocol message (`paho.MQTTMessage`): topic and raw
payload bytes. -/
structure MQTTMessage where
  topic : String
  payload : List Nat
deriving Repr, DecidableEq

/-- Whether `b` is a UTF-8 continuation byte (`0x80`–`0xBF`). -/
def contByte (b : Nat) : Bool :=
  decide (128 ≤ b) && decide (b < 192)

/-- Validity of a byte sequence under strict UTF-8, the codec used by
`msg.payload.decode()` at line 102: rejects stray continuation bytes,
overlong encodings (`C0`/`C1` leads, short `E0`/`F0` second bytes),
surrogates (`ED` with second byte at or above `0xA0`), and code points
above `U+10FFFF` (`F4` with second byte at or above `0x90`, leads `F5`
and up).  `bytes.decode()` raises `UnicodeDecodeError` exactly when
this is `false`. -/
def validUtf8 : List Nat → Bool
  | [] => true
  | b :: rest =>
    if b < 128 then validUtf8 rest
    else if b < 194 then false
    else if b < 224 then
      match rest with
      | b1 :: rest2 => contByte b1 && validUtf8 rest2
      | [] => false
    else if b < 240 then
      match rest with
      | b1 :: b2 :: rest2 =>
        (if b = 224 then decide (160 ≤ b1) && decide (b1 < 192)
         else if b = 237 then decide (128 ≤ b1) && decide (b1 < 160)
         else contByte b1) && contByte b2 && validUtf8 rest2
      | _ => false
    else if b < 245 then
      match rest with
      | b1 :: b2 :: b3 :: rest2 =>
        (if b = 240 then decide (144 ≤ b1) && decide (b1 < 192)
         else if b = 244 then decide (128 ≤ b1) && decide (b1 < 144)
         else contByte b1) && contByte b2 && contByte b3 && validUtf8 rest2
      | _ => false
    else false

/-- Structured log events, one constructor per `self.logger.…` call
site of `FletMQTTClient`, carrying the interpolated runtime data a
claim depends on. -/
inductive LogEvt where
  | connectedOk
  | subscribedTopic (topic : String)
  | connectFailed (rc : Nat)
  | msgReceived (topic : String)
  | handlerError
  | unexpectedDisconnect
  | alreadyRunning
  | startingClient
  | startOsError
  | startUnexpectedError
  | stoppingClient
  | publishNotConnected
  | queuedPublish (topic : String)
  | publishQueueFailed (topic : String)
deriving Repr, DecidableEq

/-- Result of the `_on_connect` callback: the state after the callback,
the log events it emitted, and the `client.subscribe(topic, qos)` calls
it issued, in order. -/
structure ConnectOutcome where
  state : ClientState
  logs : List LogEvt
  subscribeCalls : List (String × Nat)
deriving Repr, DecidableEq

/-- Embeds `FletMQTTClient._on_connect` (lines 87–98).  On `rc == 0` it
sets `connected_event` and subscribes to every configured topic at the
configured default QoS (the `if self.config.subscribe_topics:` guard
skips an empty list, which equals iterating over it); otherwise it logs
the failure code and clears `connected_event`. -/
def on_connect (cfg : MQTTConfig) (st : ClientState) (rc : Nat) : ConnectOutcome :=
  if rc = 0 then
    { state := { st with connected := true }
      logs := LogEvt.connectedOk :: cfg.subscribe_topics.map LogEvt.subscribedTopic
      subscribeCalls := cfg.subscribe_topics.map (fun t => (t, cfg.qos)) }
  else
    { state := { st with connected := false }
      logs := [LogEvt.connectFailed rc]
      subscribeCalls := [] }

/-- Result of the `_on_disconnect` callback. -/
structure DisconnectOutcome where
  state : ClientState
  logs : List LogEvt
deriving Repr, DecidableEq

/-- Embeds `FletMQTTClient._on_disconnect` (lines 108–112):
unconditionally clears `connected_event`, and logs a warning when the
disconnect result code is non-zero (unexpected disconnection). -/
def on_disconnect (st : ClientState) (rc : Nat) : DisconnectOutcome :=
  { state := { st with connected := false }
    logs := if rc ≠ 0 then [LogEvt.unexpectedDisconnect] else [] }

/-- Observable result of one `_on_message_internal` dispatch: the
exception (if any) propagating out of the callback, the log events
emitted before any propagating raise, and how many times the installed
handler was invoked. -/
structure DispatchOutcome where
  exc : Option PyExc
  logs : List LogEvt
  handlerCalls : Nat
deriving Repr, DecidableEq

/-- Embeds `FletMQTTClient._on_message_internal` (lines 100–106).  A
handler is a function returning `none` on normal return and `some e`
when it raises `e`.  Line 102 interpolates `msg.payload.decode()` into
the informational log; on invalid UTF-8 this decode raises
`UnicodeDecodeError` before the log is emitted, before the handler is
invoked, and outside the `try`/`except` of lines 103–106, so the raise
propagates.  On valid UTF-8 the handler runs inside the boundary and
any exception it raises is turned into an error log. -/
def on_message_internal (handler : MQTTMessage → Option PyExc) (msg : MQTTMessage) :
    DispatchOutcome :=
  if validUtf8 msg.payload then
    match handler msg with
    | none => { exc := none, logs := [LogEvt.msgReceived msg.topic], handlerCalls := 1 }
    | some _ =>
      { exc := none
        logs := [LogEvt.msgReceived msg.topic, LogEvt.handlerError]
        handlerCalls := 1 }
  else
    { exc := some PyExc.unicodeDecodeError, logs := [], handlerCalls := 0 }

/-- Sequential delivery of inbound messages by the background tick
(`_background_loop` calling `client.loop()`, which runs
`_on_message_internal` once per message): an exception propagating out
of one dispatch terminates the tick, so later messages are not
processed; otherwise logs and handler invocations accumulate. -/
def dispatchAll (handler : MQTTMessage → Option PyExc) : List MQTTMessage → DispatchOutcome
  | [] => { exc := none, logs := [], handlerCalls := 0 }
  | m :: rest =>
    let o := on_message_internal handler m
    match o.exc with
    | some e => { exc := some e, logs := o.logs, handlerCalls := o.handlerCalls }
    | none =>
      let r := dispatchAll handler rest
      { exc := r.exc, logs := o.logs ++ r.logs, handlerCalls := o.handlerCalls + r.handlerCalls }

/-- Result of a `start()` call: the state afterwards, the log events,
whether the background tick coroutine was handed to
`page.run_task` (line 133), and the exception (if any) propagating to
the caller of `start()`. -/
structure StartOutcome where
  state : ClientState
  logs : List LogEvt
  tickScheduled : Bool
  exc : Option PyExc
deriving Repr, DecidableEq

/-- Embeds `FletMQTTClient.start` (lines 123–137).  `connectExc` is the
outcome of the protocol client's `client.connect(host, port, keepalive)`
call: `none` when it returns, `some e` when it raises `e` (for example
a DNS or socket failure).  When already running, `start` logs a warning
and returns.  Otherwise it clears `connected_event` and attempts the
connect; on success it sets `_is_running` and schedules the background
tick, and on a raise the `except (socket.error, OSError)` /
`except Exception` clauses catch it and log an error, leaving
`_is_running` unset and the tick unscheduled. -/
def start (st : ClientState) (connectExc : Option PyExc) : StartOutcome :=
  if st.is_running then
    { state := st, logs := [LogEvt.alreadyRunning], tickScheduled := false, exc := none }
  else
    match connectExc with
    | none =>
      { state := { connected := false, is_running := true }
        logs := [LogEvt.startingClient]
        tickScheduled := true
        exc := none }
    | some e =>
      { state := { st with connected := false }
        logs := [LogEvt.startingClient,
                 if e = PyExc.osError then LogEvt.startOsError else LogEvt.startUnexpectedError]
        tickScheduled := false
        exc := none }

/-- Result of a `stop()` call: the state afterwards, the log events,
whether `client.disconnect()` was requested, and the exception (if any)
propagating to the caller of `stop()`. -/
structure StopOutcome where
  state : ClientState
  logs : List LogEvt
  disconnectCalled : Bool
  exc : Option PyExc
deriving Repr, DecidableEq

/-- Embeds `FletMQTTClient.stop` (lines 139–146): a no-op when not
running; otherwise clears `_is_running` (the tick exits after its
current iteration), requests a protocol-level disconnect, and clears
`connected_event`.  No statement in the body can raise (the protocol
client's `disconnect` returns a result code). -/
def stop (st : ClientState) : StopOutcome :=
  if st.is_running then
    { state := { connected := false, is_running := false }
      logs := [LogEvt.stoppingClient]
      disconnectCalled := true
      exc := none }
  else
    { state := st, logs := [], disconnectCalled := false, exc := none }

/-- Embeds lines 158–159 of `publish`:
`if isinstance(payload, (dict, list)): payload = json.dumps(payload)`.
A structured payload is replaced by its JSON text; `json.dumps` raises
`TypeError` when the structure contains a non-serializable value (the
raise is not inside any `try` of `publish`, so it propagates).  Any
other payload passes through unchanged. -/
def serializePayload : PyVal → Except PyExc PyVal
  | PyVal.dict es =>
    match jsonDumpsVal (PyVal.dict es) with
    | some s => Except.ok (PyVal.str s)
    | none => Except.error PyExc.typeError
  | PyVal.list xs =>
    match jsonDumpsVal (PyVal.list xs) with
    | some s => Except.ok (PyVal.str s)
    | none => Except.error PyExc.typeError
  | p => Except.ok p

/-- The `isinstance(payload, (dict, list))` test of line 158. -/
def isStructured : PyVal → Bool
  | PyVal.dict _ => true
  | PyVal.list _ => true
  | _ => false

/-- Whether line 159 would serialize `p` without raising (trivially
true for non-structured payloads, which skip serialization). -/
def serializeOk (p : PyVal) : Bool :=
  match serializePayload p with
  | Except.ok _ => true
  | Except.error _ => false

/-- The paho constant `MQTT_ERR_SUCCESS` compared against the enqueue
result at line 165. -/
def MQTT_ERR_SUCCESS : Nat := 0

/-- One call handed to the protocol client's send primitive
(`client.publish(topic, payload, qos, retain)` at line 163). -/
structure SendCall where
  topic : String
  payload : PyVal
  qos : Nat
  retain : Bool
deriving Repr

/-- Result of a `publish()` call: state afterwards (never modified by
the body), the log events, the calls handed to the protocol client's
send primitive, and the exception (if any) propagating to the caller
of `publish()`. -/
structure PublishOutcome where
  state : ClientState
  logs : List LogEvt
  sends : List SendCall
  exc : Option PyExc
deriving Repr

/-- Embeds `FletMQTTClient.publish` (lines 148–168).  `becomesConnected`
resolves the `await asyncio.wait_for(self.connected_event.wait(), 5.0)`
of line 153: `true` when `connected_event` is already set or becomes
set within the 5-second window (the wait returns), `false` when the
window elapses first (the wait raises `asyncio.TimeoutError`, caught at
line 154: an error is logged and the call returns with nothing sent and
nothing queued).  `sendRc` is the enqueue result code the protocol
client returns from its send primitive.  After the wait, line 159
serializes a structured payload (a raise there propagates, nothing is
sent), line 161 resolves the effective QoS (explicit override if not
`None`, else the configured default), line 163 hands the message to the
send primitive exactly once, and lines 165–168 log the enqueue
result. -/
def publish (cfg : MQTTConfig) (st : ClientState) (becomesConnected : Bool) (sendRc : Nat)
    (topic : String) (payload : PyVal) (qos : Option Nat) (retain : Bool) : PublishOutcome :=
  if becomesConnected then
    match serializePayload payload with
    | Except.error e => { state := st, logs := [], sends := [], exc := some e }
    | Except.ok wire =>
      let qos_level := qos.getD cfg.qos
      { state := st
        logs := [if sendRc = MQTT_ERR_SUCCESS then LogEvt.queuedPublish topic
                 else LogEvt.publishQueueFailed topic]
        sends := [{ topic := topic, payload := wire, qos := qos_level, retain := retain }]
        exc := none }
  else
    { state := st, logs := [LogEvt.publishNotConnected], sends := [], exc := none }

/-! ### Helper lemmas about the serialization step -/

/-- Helper: when line 159 serializes a structured payload successfully,
the value handed on is exactly the JSON text produced by `json.dumps`. -/
theorem serializePayload_structured (p w : PyVal) (hstruct : isStructured p = true)
    (h : serializePayload p = Except.ok w) :
    ∃ j, jsonDumpsVal p = some j ∧ w = PyVal.str j := by
  cases p with
  | dict es =>
    cases hj : jsonDumpsVal (PyVal.dict es) with
    | none => simp [serializePayload, hj] at h
    | some j =>
      simp only [serializePayload, hj, Except.ok.injEq] at h
      exact ⟨j, rfl, h.symm⟩
  | list xs =>
    cases hj : jsonDumpsVal (PyVal.list xs) with
    | none => simp [serializePayload, hj] at h
    | some j =>
      simp only [serializePayload, hj, Except.ok.injEq] at h
      exact ⟨j, rfl, h.symm⟩
  | str s => simp [isStructured] at hstruct
  | bytes b => simp [isStructured] at hstruct
  | int n => simp [isStructured] at hstruct
  | obj => simp [isStructured] at hstruct

/-- Helper: a payload that is not a `dict` or `list` skips line 159
unchanged. -/
theorem serializePayload_raw (p : PyVal) (hraw : isStructured p = false) :
    serializePayload p = Except.ok p := by
  cases p <;> first
    | rfl
    | simp [isStructured] at hraw

/-- Helper: when every delivered payload is valid UTF-8, the dispatch
sequence never propagates an exception and the handler is invoked once
per message, whatever the handler does. -/
theorem dispatchAll_total (handler : MQTTMessage → Option PyExc) (msgs : List MQTTMessage)
    (hvalid : ∀ x ∈ msgs, validUtf8 x.payload = true) :
    (dispatchAll handler msgs).exc = none
    ∧ (dispatchAll handler msgs).handlerCalls = msgs.length := by
  induction msgs with
  | nil => simp [dispatchAll]
  | cons m rest ih =>
    have hm : validUtf8 m.payload = true := hvalid m (List.mem_cons_self m rest)
    have hrest := ih (fun x hx => hvalid x (List.mem_cons_of_mem m hx))
    cases hh : handler m <;>
      simp [dispatchAll, on_message_internal, hm, hh, hrest.1, hrest.2] <;> omega

/-! ### Claim theorems -/

/-- C1, counterexample: the claim says no call to `publish` ever raises
to its caller for any argument values.  It fails: with a `dict` payload
containing a member `json.dumps` cannot serialize, line 159 raises
`TypeError`, and that line sits outside the `try`/`except` of
lines 152–156, so the exception propagates to the caller of
`publish`. -/
theorem publish_no_raise_counterexample :
    (publish {} ⟨true, true⟩ true 0 "x/y"
        (PyVal.dict [("x", PyVal.obj)]) none false).exc ≠ none := by
  decide

/-- C1, amended: `start()` and `stop()` never raise to their caller,
and `publish()` never raises provided that a structured (`dict`/`list`)
payload is JSON-serializable; all handled failures (connect-initiation
errors, the publish wait timeout, enqueue failures) are resolved to log
output. -/
theorem lifecycle_calls_never_raise (cfg : MQTTConfig) (st st' st'' : ClientState)
    (connectExc : Option PyExc) (becomesConnected : Bool) (sendRc : Nat)
    (topic : String) (payload : PyVal) (qos : Option Nat) (retain : Bool)
    (h : serializeOk payload = true) :
    (start st connectExc).exc = none
    ∧ (stop st').exc = none
    ∧ (publish cfg st'' becomesConnected sendRc topic payload qos retain).exc = none := by
  refine ⟨?_, ?_, ?_⟩
  · cases hr : st.is_running <;> cases connectExc <;> simp [start, hr]
  · cases hr : st'.is_running <;> simp [stop, hr]
  · cases becomesConnected with
    | false => simp [publish]
    | true =>
      unfold serializeOk at h
      cases hs : serializePayload payload with
      | error e => rw [hs] at h; simp at h
      | ok w => simp [publish, hs]

/-- C1, witness for the amended theorem at concrete inputs. -/
theorem lifecycle_calls_never_raise_witness :
    (start ⟨false, false⟩ (some PyExc.osError)).exc = none
    ∧ (stop ⟨true, true⟩).exc = none
    ∧ (publish {} ⟨true, true⟩ true 0 "x/y"
        (PyVal.dict [("state", PyVal.str "ON")]) none false).exc = none :=
  lifecycle_calls_never_raise {} ⟨false, false⟩ ⟨true, true⟩ ⟨true, true⟩
    (some PyExc.osError) true 0 "x/y" (PyVal.dict [("state", PyVal.str "ON")]) none false rfl

/-- C2: `connected_event` is set by a connect acknowledgement exactly
when its result code is `0`, cleared by a connect acknowledgement with
a non-zero code, cleared unconditionally by a disconnect event, and
cleared by `stop()` when the client is running. -/
theorem connected_event_transitions (cfg : MQTTConfig) (st : ClientState) (rc : Nat) :
    ((on_connect cfg st rc).state.connected = true ↔ rc = 0)
    ∧ (on_disconnect st rc).state.connected = false
    ∧ (st.is_running = true → (stop st).state.connected = false) := by
  refine ⟨?_, ?_, ?_⟩
  · by_cases h : rc = 0 <;> simp [on_connect, h]
  · simp [on_disconnect]
  · intro h; simp [stop, h]

/-- C2, witness at a concrete failed acknowledgement, disconnect and
stop of a running client. -/
theorem connected_event_transitions_witness :
    ((on_connect {} ⟨true, true⟩ 1).state.connected = true ↔ (1 : Nat) = 0)
    ∧ (on_disconnect ⟨true, true⟩ 1).state.connected = false
    ∧ (stop ⟨true, true⟩).state.connected = false :=
  have h := connected_event_transitions {} ⟨true, true⟩ 1
  ⟨h.1, h.2.1, h.2.2 rfl⟩

/-- C3: a connect acknowledgement with result code `0` issues one
subscribe call per configured topic, in list order, each at the
configured default QoS — hence exactly `N` calls for `N` topics and
zero calls for an empty list. -/
theorem on_connect_subscribes (cfg : MQTTConfig) (st : ClientState) :
    (on_connect cfg st 0).subscribeCalls
        = cfg.subscribe_topics.map (fun t => (t, cfg.qos))
    ∧ (on_connect cfg st 0).subscribeCalls.length = cfg.subscribe_topics.length := by
  constructor <;> simp [on_connect]

/-- C4, counterexample: the claim says every `publish` call made while
the connected condition holds invokes the send primitive exactly once.
It fails: a structured payload with a non-serializable member makes
line 159 raise before line 163, so the send primitive is invoked zero
times. -/
theorem publish_sends_exactly_once_counterexample :
    (publish {} ⟨true, true⟩ true 0 "x/y"
        (PyVal.dict [("x", PyVal.obj)]) none false).sends.length ≠ 1 := by
  decide

/-- C4, amended: every `publish` call made when the connected condition
is true (or becomes true within the timeout) and whose payload, if
structured, is JSON-serializable, invokes the protocol client's send
primitive exactly once, with the explicit QoS override when given and
the configured default otherwise, and with the given retain flag. -/
theorem publish_sends_exactly_once (cfg : MQTTConfig) (st : ClientState) (sendRc : Nat)
    (topic : String) (payload : PyVal) (qos : Option Nat) (retain : Bool)
    (h : serializeOk payload = true) :
    (publish cfg st true sendRc topic payload qos retain).sends.map SendCall.qos
        = [qos.getD cfg.qos]
    ∧ (publish cfg st true sendRc topic payload qos retain).sends.map SendCall.retain
        = [retain]
    ∧ (publish cfg st true sendRc topic payload qos retain).sends.map SendCall.topic
        = [topic] := by
  unfold serializeOk at h
  cases hs : serializePayload payload with
  | error e => rw [hs] at h; simp at h
  | ok w => refine ⟨?_, ?_, ?_⟩ <;> simp [publish, hs]

/-- C4, witness: a publish with explicit QoS override `2` and retain
set, at a string payload. -/
theorem publish_sends_exactly_once_witness :
    (publish {} ⟨true, true⟩ true 0 "x/y" (PyVal.str "hi") (some 2) true).sends.map
        SendCall.qos = [2]
    ∧ (publish {} ⟨true, true⟩ true 0 "x/y" (PyVal.str "hi") (some 2) true).sends.map
        SendCall.retain = [true]
    ∧ (publish {} ⟨true, true⟩ true 0 "x/y" (PyVal.str "hi") (some 2) true).sends.map
        SendCall.topic = ["x/y"] :=
  publish_sends_exactly_once {} ⟨true, true⟩ 0 "x/y" (PyVal.str "hi") (some 2) true rfl

/-- C5: a `publish` call whose wait on the connected condition times
out logs an error and returns: nothing is handed to the send primitive,
no exception propagates, and the client state is untouched (in
particular nothing is queued for a later retry — the body keeps no
record of the dropped message). -/
theorem publish_timeout_drops (cfg : MQTTConfig) (st : ClientState) (sendRc : Nat)
    (topic : String) (payload : PyVal) (qos : Option Nat) (retain : Bool) :
    publish cfg st false sendRc topic payload qos retain
      = { state := st, logs := [LogEvt.publishNotConnected], sends := [], exc := none } := by
  simp [publish]

/-- C6: whatever is handed to the protocol client's send primitive is
the JSON text of the payload when the payload is structured
(`dict`/`list`), and the payload itself, unchanged, otherwise (in
particular for raw `str` and `bytes` payloads). -/
theorem publish_payload_wire_form (cfg : MQTTConfig) (st : ClientState)
    (becomesConnected : Bool) (sendRc : Nat) (topic : String) (payload : PyVal)
    (qos : Option Nat) (retain : Bool) :
    (isStructured payload = true →
      ∀ s ∈ (publish cfg st becomesConnected sendRc topic payload qos retain).sends,
        ∃ j, jsonDumpsVal payload = some j ∧ s.payload = PyVal.str j)
    ∧ (isStructured payload = false →
      ∀ s ∈ (publish cfg st becomesConnected sendRc topic payload qos retain).sends,
        s.payload = payload) := by
  cases becomesConnected with
  | false => constructor <;> · intro _ s hs; simp [publish] at hs
  | true =>
    constructor
    · intro hstruct s hs
      cases hsp : serializePayload payload with
      | error e => simp [publish, hsp] at hs
      | ok w =>
        obtain ⟨j, hj, hw⟩ := serializePayload_structured payload w hstruct hsp
        simp [publish, hsp] at hs
        exact ⟨j, hj, by rw [hs, hw]⟩
    · intro hraw s hs
      rw [show (publish cfg st true sendRc topic payload qos retain)
            = publish cfg st true sendRc topic payload qos retain from rfl] at hs
      simp [publish, serializePayload_raw payload hraw] at hs
      rw [hs]

/-- C6, witness: the specification's scenario, a structured payload
`\x7b"v": 1\x7d` published with retain set while connected. -/
theorem publish_payload_wire_form_witness :
    ∃ j, jsonDumpsVal (PyVal.dict [("v", PyVal.int 1)]) = some j ∧
      (PyVal.str "\x7b\"v\": 1\x7d") = PyVal.str j := by
  have h := (publish_payload_wire_form {} ⟨true, true⟩ true 0 "x/y"
      (PyVal.dict [("v", PyVal.int 1)]) none true).1 rfl
      { topic := "x/y", payload := PyVal.str "\x7b\"v\": 1\x7d", qos := 0, retain := true }
      (List.Mem.head _)
  exact h

/-- C7: for every inbound message whose payload decodes (so the handler
is actually reached), an exception raised by the handler is caught at
the dispatcher boundary and turned into an error log, and no exception
propagates out of the dispatch callback; consequently a handler that
raises on every call never terminates the background tick — after any
sequence of decodable messages the dispatch chain is still alive and
the handler was invoked once per message. -/
theorem handler_errors_contained (handler : MQTTMessage → Option PyExc)
    (msgs : List MQTTMessage) (m : MQTTMessage) (e : PyExc)
    (hvalid : ∀ x ∈ msgs, validUtf8 x.payload = true)
    (hm : validUtf8 m.payload = true) (hraise : handler m = some e) :
    ((on_message_internal handler m).exc = none
      ∧ (on_message_internal handler m).logs
          = [LogEvt.msgReceived m.topic, LogEvt.handlerError])
    ∧ (dispatchAll handler msgs).exc = none
    ∧ (dispatchAll handler msgs).handlerCalls = msgs.length := by
  have ht := dispatchAll_total handler msgs hvalid
  exact ⟨by constructor <;> simp [on_message_internal, hm, hraise], ht.1, ht.2⟩

/-- C7, witness: a handler that raises on every call, over two
concrete ASCII messages. -/
theorem handler_errors_contained_witness :
    ((on_message_internal (fun _ => some PyExc.other) ⟨"t", [104]⟩).exc = none
      ∧ (on_message_internal (fun _ => some PyExc.other) ⟨"t", [104]⟩).logs
          = [LogEvt.msgReceived "t", LogEvt.handlerError])
    ∧ (dispatchAll (fun _ => some PyExc.other) [⟨"t", [104]⟩, ⟨"u", [105]⟩]).exc = none
    ∧ (dispatchAll (fun _ => some PyExc.other)
        [⟨"t", [104]⟩, ⟨"u", [105]⟩]).handlerCalls
          = [(⟨"t", [104]⟩ : MQTTMessage), ⟨"u", [105]⟩].length :=
  handler_errors_contained (fun _ => some PyExc.other) [⟨"t", [104]⟩, ⟨"u", [105]⟩]
    ⟨"t", [104]⟩ PyExc.other (by decide) (by decide) rfl

/-- C8: when the protocol client's `connect` raises during `start()`
(host unreachable, DNS failure, or any other exception), the error is
caught and logged, `start()` returns without raising, the running flag
stays unset, and no background tick is scheduled. -/
theorem start_connect_failure_safe (st : ClientState) (e : PyExc)
    (h : st.is_running = false) :
    (start st (some e)).exc = none
    ∧ (start st (some e)).state.is_running = false
    ∧ (start st (some e)).tickScheduled = false
    ∧ (start st (some e)).logs
        = [LogEvt.startingClient,
           if e = PyExc.osError then LogEvt.startOsError
           else LogEvt.startUnexpectedError] := by
  refine ⟨?_, ?_, ?_, ?_⟩ <;> simp [start, h]

/-- C8, witness: a stopped client whose connect raises an `OSError`. -/
theorem start_connect_failure_safe_witness :
    (start ⟨true, false⟩ (some PyExc.osError)).exc = none
    ∧ (start ⟨true, false⟩ (some PyExc.osError)).state.is_running = false
    ∧ (start ⟨true, false⟩ (some PyExc.osError)).tickScheduled = false
    ∧ (start ⟨true, false⟩ (some PyExc.osError)).logs
        = [LogEvt.startingClient, LogEvt.startOsError] :=
  start_connect_failure_safe ⟨true, false⟩ PyExc.osError rfl

/-- C9: `stop()` never unblocks a pending `publish` wait through the
connected condition: it only ever clears `connected_event` (if the
resulting state has it set, it was set before and the call was a
no-op), so a `publish` waiting on the condition can only terminate
through its own timeout, never because `stop()` satisfied the wait. -/
theorem stop_never_sets_connected (st : ClientState) :
    ((stop st).state.connected = true → st.connected = true)
    ∧ ((stop st).state.connected = false ∨ (stop st).state = st) := by
  cases hr : st.is_running with
  | false => simp [stop, hr]
  | true => simp [stop, hr]

/-- C9, witness: a non-running client with the condition set is left
untouched by `stop()`. -/
theorem stop_never_sets_connected_witness :
    (⟨true, false⟩ : ClientState).connected = true :=
  (stop_never_sets_connected ⟨true, false⟩).1 rfl

/-- C10: an inbound message whose payload bytes are not valid UTF-8
makes the `msg.payload.decode()` interpolation of the informational log
at line 102 raise `UnicodeDecodeError` before the handler is invoked
and outside the `try`/`except` boundary of lines 103–106: the exception
propagates out of the dispatch callback, the handler is never called,
and not even the informational log is emitted — dispatch is not total
over arbitrary byte payloads even though handler errors are
contained. -/
theorem dispatch_invalid_utf8_raises (handler : MQTTMessage → Option PyExc)
    (msg : MQTTMessage) (h : validUtf8 msg.payload = false) :
    (on_message_internal handler msg).exc = some PyExc.unicodeDecodeError
    ∧ (on_message_internal handler msg).handlerCalls = 0
    ∧ (on_message_internal handler msg).logs = [] := by
  refine ⟨?_, ?_, ?_⟩ <;> simp [on_message_internal, h]

/-- C10, witness: the single byte `0xFF` is not valid UTF-8, and its
dispatch propagates `UnicodeDecodeError` with the handler never
invoked. -/
theorem dispatch_invalid_utf8_raises_witness :
    (on_message_internal (fun _ => none) ⟨"t", [255]⟩).exc = some PyExc.unicodeDecodeError
    ∧ (on_message_internal (fun _ => none) ⟨"t", [255]⟩).handlerCalls = 0
    ∧ (on_message_internal (fun _ => none) ⟨"t", [255]⟩).logs = [] :=
  dispatch_invalid_utf8_raises (fun _ => none) ⟨"t", [255]⟩ rfl

end FletMQTT
